import Mathlib

/-!
Shallow embedding of the `miipy_miiabit` driver (files `miipy_miiabit.py`
and `miia_bit_definitions.py`).

Modelling conventions:
- Python integers are `Int`; bytes on the wire are `Nat` (each produced by
  `struct.pack("!1B", x)`, which succeeds exactly when `0 ≤ x ≤ 255` and
  raises `struct.error` otherwise).
- A Python `assert` failure is `MErr.assertionError msg`; a dictionary
  lookup miss is `MErr.keyError`; a `struct` pack/unpack failure is
  `MErr.structError`.
- Each controller operation is a pure function of the device state and its
  arguments, returning an `OpResult`: the post-state, the list of bytes
  written to the serial channel (in order), and the error raised, if any.
  Since `_pack_data_array` packs the whole frame before `_send_data` writes
  any byte, a failing operation writes nothing.
- `_receive_data` takes the byte list returned by `serial.read(size=6)`
  (possibly shorter than 6 on timeout) as an explicit argument.
-/

/-- Dictionary `miia_bit_opcodes` from `miia_bit_definitions.py`. -/
def miia_bit_opcodes (key : String) : Option Nat :=
  if key = "buzzer" then some 201
  else if key = "motor_a" then some 202
  else if key = "motor_b" then some 203
  else if key = "rgb_led_r" then some 204
  else if key = "rgb_led_g" then some 205
  else if key = "rgb_led_b" then some 206
  else if key = "servo" then some 208
  else none

/-- List `miia_bit_motors` (the strings a and b). -/
def miia_bit_motors : List String := ["a", "b"]

/-- Membership in `range(0, 101)` for `miia_bit_motor_speed_range`. -/
def miia_bit_motor_speed_range (x : Int) : Bool := 0 ≤ x && x < 101

/-- Dictionary `miia_bit_motor_directions`. -/
def miia_bit_motor_directions (key : String) : Option Nat :=
  if key = "reverse" then some 1
  else if key = "forward" then some 0
  else none

/-- Dictionary `miia_bit_buzzer_states`. -/
def miia_bit_buzzer_states (key : String) : Option Nat :=
  if key = "on" then some 1
  else if key = "off" then some 0
  else none

/-- Membership in `range(0, 101)` for `miia_bit_servo_range`. -/
def miia_bit_servo_range (x : Int) : Bool := 0 ≤ x && x < 101

/-- Membership in `range(-50, 51)` for `miia_bit_calibration_range`. -/
def miia_bit_calibration_range (x : Int) : Bool := -50 ≤ x && x < 51

/-- Membership in `range(0, 101)` for `miia_bit_rgb_led_range`. -/
def miia_bit_rgb_led_range (x : Int) : Bool := 0 ≤ x && x < 101

/-- Errors a driver operation can raise. -/
inductive MErr where
  | assertionError : String → MErr
  | keyError : MErr
  | structError : MErr
deriving DecidableEq, Repr

/-- Device state of a `MiiABit` object: the `motor_cal_values` dictionary
(keys `a` and `b`) and the two cached sensor attributes, `None` initially. -/
structure MiiABit where
  motor_cal_a : Int
  motor_cal_b : Int
  distance_sensor : Option Nat
  input_button_state : Option Nat
deriving DecidableEq, Repr

/-- Outcome of one driver operation: post-state, bytes written to the
serial channel in order, and the error raised, if any. -/
structure OpResult where
  state : MiiABit
  written : List Nat
  err : Option MErr
deriving DecidableEq, Repr

/-- `struct.pack("!1B", item)`: one unsigned byte; raises `struct.error`
when the value is outside `[0, 255]`. -/
def struct_pack_1B (item : Int) : Except MErr Nat :=
  if 0 ≤ item ∧ item ≤ 255 then Except.ok item.toNat
  else Except.error MErr.structError

/-- `MiiABit._pack_data_array`: packs each item with `struct.pack("!1B", ·)`,
left to right; the first out-of-range item raises `struct.error`. -/
def pack_data_array : List Int → Except MErr (List Nat)
  | [] => Except.ok []
  | item :: rest =>
    match struct_pack_1B item with
    | Except.error e => Except.error e
    | Except.ok b =>
      match pack_data_array rest with
      | Except.error e => Except.error e
      | Except.ok bs => Except.ok (b :: bs)

/-- `struct.unpack("!6B", data)`: succeeds exactly on 6 bytes, raising
`struct.error` on a short (or long) read. -/
def struct_unpack_6B (data : List Nat) : Except MErr (List Nat) :=
  if data.length = 6 then Except.ok data else Except.error MErr.structError

/-- Packs then sends: on a successful pack the whole frame is written via
`_send_data`; on a pack error nothing is written and the error propagates. -/
def sendPacked (st : MiiABit) (packed : Except MErr (List Nat)) : OpResult :=
  match packed with
  | Except.ok bytes => ⟨st, bytes, none⟩
  | Except.error e => ⟨st, [], some e⟩

/-- Lookup `self.motor_cal_values[motor]` (only reached once `motor` has
passed the membership assert, so the two dictionary keys suffice). -/
def MiiABit.calOf (st : MiiABit) (motor : String) : Int :=
  if motor = "a" then st.motor_cal_a else st.motor_cal_b

/-- `MiiABit.set_motor_calibration`: validates `motor` and
`calibration_factor`, then stores the factor in `motor_cal_values`. -/
def MiiABit.set_motor_calibration (st : MiiABit) (motor : String)
    (calibration_factor : Int) : OpResult :=
  if !(miia_bit_motors.contains motor) then
    ⟨st, [], some (MErr.assertionError "Select either motor a or b")⟩
  else if !(miia_bit_calibration_range calibration_factor) then
    ⟨st, [], some (MErr.assertionError
      "Calibration factor must be in the range -50 to 50")⟩
  else if motor = "a" then
    ⟨{ st with motor_cal_a := calibration_factor }, [], none⟩
  else
    ⟨{ st with motor_cal_b := calibration_factor }, [], none⟩

/-- `MiiABit.control_rgb_led`: validates the three intensities, then packs
and sends `[opcode_r, red, opcode_g, green, opcode_b, blue]`. -/
def MiiABit.control_rgb_led (st : MiiABit) (red green blue : Int) : OpResult :=
  if !(miia_bit_rgb_led_range red) then
    ⟨st, [], some (MErr.assertionError
      "Channel intensity must be between 0 and 100")⟩
  else if !(miia_bit_rgb_led_range green) then
    ⟨st, [], some (MErr.assertionError
      "Channel intensity must be between 0 and 100")⟩
  else if !(miia_bit_rgb_led_range blue) then
    ⟨st, [], some (MErr.assertionError
      "Channel intensity must be between 0 and 100")⟩
  else
    sendPacked st
      (match miia_bit_opcodes "rgb_led_r", miia_bit_opcodes "rgb_led_g",
             miia_bit_opcodes "rgb_led_b" with
       | some opr, some opg, some opb =>
         pack_data_array [(opr : Int), red, (opg : Int), green, (opb : Int), blue]
       | _, _, _ => Except.error MErr.keyError)

/-- `MiiABit.control_buzzer`: validates the state string, then packs and
sends `[opcode_buzzer, state_value]`. -/
def MiiABit.control_buzzer (st : MiiABit) (buzzer_state : String) : OpResult :=
  if (miia_bit_buzzer_states buzzer_state).isNone then
    ⟨st, [], some (MErr.assertionError "Buzzer state must be on or off")⟩
  else
    sendPacked st
      (match miia_bit_opcodes "buzzer", miia_bit_buzzer_states buzzer_state with
       | some op, some sv => pack_data_array [(op : Int), (sv : Int)]
       | _, _ => Except.error MErr.keyError)

/-- `MiiABit.control_motor`: validates direction, speed, motor (in that
order), adds the stored calibration factor to the speed, then packs and
sends `[motor_opcode, direction_value, speed + calibration]`. -/
def MiiABit.control_motor (st : MiiABit) (motor direction : String)
    (speed : Int) : OpResult :=
  if (miia_bit_motor_directions direction).isNone then
    ⟨st, [], some (MErr.assertionError
      "Direction must be either forward or reverse")⟩
  else if !(miia_bit_motor_speed_range speed) then
    ⟨st, [], some (MErr.assertionError "Speed must be in the range 0 - 100")⟩
  else if !(miia_bit_motors.contains motor) then
    ⟨st, [], some (MErr.assertionError "Select either motor a or b")⟩
  else
    sendPacked st
      (match miia_bit_opcodes ("motor_" ++ motor) with
       | none => Except.error MErr.keyError
       | some op =>
         match miia_bit_motor_directions direction with
         | none => Except.error MErr.keyError
         | some dirv =>
           pack_data_array [(op : Int), (dirv : Int), speed + st.calOf motor])

/-- `MiiABit.control_servo_motor`: validates the position, then packs and
sends `[servo_opcode, position]`. -/
def MiiABit.control_servo_motor (st : MiiABit) (position : Int) : OpResult :=
  if !(miia_bit_servo_range position) then
    ⟨st, [], some (MErr.assertionError "Position must be in the range 0 - 100")⟩
  else
    sendPacked st
      (match miia_bit_opcodes "servo" with
       | some op => pack_data_array [(op : Int), position]
       | none => Except.error MErr.keyError)

/-- `MiiABit._receive_data`: unpacks the bytes returned by
`serial_connection.read(size=6)` as `"!6B"`; on success stores byte 1 in
`input_button_state` and byte 4 in `distance_sensor`; on a short read the
`struct.error` propagates before any attribute is assigned. -/
def MiiABit.receive_data (st : MiiABit) (read_bytes : List Nat) :
    MiiABit × Option MErr :=
  match struct_unpack_6B read_bytes with
  | Except.error e => (st, some e)
  | Except.ok rcvd =>
    ({ st with input_button_state := rcvd.get? 1,
               distance_sensor := rcvd.get? 4 }, none)

/-- `MiiABit.get_data_from_sensors`: delegates to `_receive_data`. -/
def MiiABit.get_data_from_sensors (st : MiiABit) (read_bytes : List Nat) :
    MiiABit × Option MErr :=
  st.receive_data read_bytes

/-- `MiiABit._connection_ready`: packs and sends the single byte 0. -/
def MiiABit.connection_ready (st : MiiABit) : OpResult :=
  sendPacked st (pack_data_array [0])

/-- `MiiABit.__init__`: sets up `motor_cal_values` from the two calibration
arguments, initializes both cached sensor attributes to `None`, and runs
`_connection_ready` (the only channel traffic during construction). -/
def MiiABit.init (motor_a_calibration motor_b_calibration : Int) : OpResult :=
  MiiABit.connection_ready
    ⟨motor_a_calibration, motor_b_calibration, none, none⟩

/-! ### Helper lemmas -/

lemma sendPacked_state (st : MiiABit) (p : Except MErr (List Nat)) :
    (sendPacked st p).state = st := by
  cases p <;> rfl

lemma struct_pack_1B_ok (x : Int) (h0 : 0 ≤ x) (h1 : x ≤ 255) :
    struct_pack_1B x = Except.ok x.toNat := by
  unfold struct_pack_1B
  exact if_pos ⟨h0, h1⟩

lemma pack_data_array_ok (l : List Int) (h : ∀ x ∈ l, 0 ≤ x ∧ x ≤ 255) :
    pack_data_array l = Except.ok (l.map Int.toNat) := by
  induction l with
  | nil => rfl
  | cons x xs ih =>
    have hx := h x (List.mem_cons_self x xs)
    have hxs := ih (fun y hy => h y (List.mem_cons_of_mem x hy))
    simp only [pack_data_array, struct_pack_1B_ok x hx.1 hx.2, hxs, List.map]

lemma pack_data_array_third_bad (a b c : Int)
    (ha : 0 ≤ a ∧ a ≤ 255) (hb : 0 ≤ b ∧ b ≤ 255) (hc : c < 0 ∨ 255 < c) :
    pack_data_array [a, b, c] = Except.error MErr.structError := by
  have hcp : struct_pack_1B c = Except.error MErr.structError := by
    unfold struct_pack_1B
    rw [if_neg]
    rintro ⟨h1, h2⟩
    omega
  simp only [pack_data_array, struct_pack_1B_ok a ha.1 ha.2,
    struct_pack_1B_ok b hb.1 hb.2, hcp]

lemma directions_some_cases (d : String) (v : Nat)
    (h : miia_bit_motor_directions d = some v) : v = 1 ∨ v = 0 := by
  unfold miia_bit_motor_directions at h
  split_ifs at h <;> simp_all

lemma speed_range_iff (x : Int) :
    miia_bit_motor_speed_range x = true ↔ 0 ≤ x ∧ x ≤ 100 := by
  simp only [miia_bit_motor_speed_range, Bool.and_eq_true, decide_eq_true_eq]
  omega

lemma rgb_range_iff (x : Int) :
    miia_bit_rgb_led_range x = true ↔ 0 ≤ x ∧ x ≤ 100 := by
  simp only [miia_bit_rgb_led_range, Bool.and_eq_true, decide_eq_true_eq]
  omega

lemma calibration_range_iff (x : Int) :
    miia_bit_calibration_range x = true ↔ -50 ≤ x ∧ x ≤ 50 := by
  simp only [miia_bit_calibration_range, Bool.and_eq_true, decide_eq_true_eq]
  omega

lemma motors_contains_of_eq (m : String) (h : m = "a" ∨ m = "b") :
    miia_bit_motors.contains m = true := by
  rcases h with h | h <;> subst h <;> decide

/-- An operation that failed validation: state untouched, nothing written,
and an `AssertionError` raised. -/
def validationFailure (st : MiiABit) (r : OpResult) : Prop :=
  r.state = st ∧ r.written = [] ∧ ∃ msg, r.err = some (MErr.assertionError msg)

/-! ### Claim theorems -/

/-- Claim C4: `get_data_from_sensors` reads exactly 6 bytes and decodes the
telemetry frame by taking byte index 1 as the input-button state and byte
index 4 as the distance reading, overwriting the two cached fields and
raising no error; in particular decoding `[99,1,99,122,37,122]` yields
`input_button_state = 1` and `distance_sensor = 37`. -/
theorem C4_telemetry_decode :
    (∀ (st : MiiABit) (b0 b1 b2 b3 b4 b5 : Nat),
      st.get_data_from_sensors [b0, b1, b2, b3, b4, b5] =
        ({ st with input_button_state := some b1,
                   distance_sensor := some b4 }, none)) ∧
    (MiiABit.mk 0 0 none none).get_data_from_sensors [99, 1, 99, 122, 37, 122] =
      (⟨0, 0, some 37, some 1⟩, none) := by
  constructor
  · intro st b0 b1 b2 b3 b4 b5
    rfl
  · decide

/-- Claim C5 (amended): decoding performs no marker validation — every
6-byte frame is accepted (no error) and decoded by byte positions 1 and 4
regardless of the values of the marker positions 0, 2, 3, 5. -/
theorem C5_no_marker_validation (st : MiiABit) (frame : List Nat)
    (h : frame.length = 6) :
    (st.get_data_from_sensors frame).2 = none ∧
    (st.get_data_from_sensors frame).1.input_button_state = frame.get? 1 ∧
    (st.get_data_from_sensors frame).1.distance_sensor = frame.get? 4 := by
  simp [MiiABit.get_data_from_sensors, MiiABit.receive_data, struct_unpack_6B, h]

/-- Claim C5 counterexample: a frame whose four marker positions all
mismatch (99,99,122,122 expected; 0,0,0,0 present) is decoded without any
malformed-frame error being raised. -/
theorem C5_counterexample :
    (MiiABit.mk 0 0 none none).get_data_from_sensors [0, 1, 0, 0, 37, 0] =
      (⟨0, 0, some 37, some 1⟩, none) := by decide

/-- Claim C5 witness: instance of the amended theorem on a concrete
mismatched-marker frame. -/
theorem C5_witness :
    ((MiiABit.mk 0 0 none none).get_data_from_sensors [5, 7, 5, 6, 42, 6]).2 = none ∧
    ((MiiABit.mk 0 0 none none).get_data_from_sensors [5, 7, 5, 6, 42, 6]).1.input_button_state =
      [5, 7, 5, 6, 42, 6].get? 1 ∧
    ((MiiABit.mk 0 0 none none).get_data_from_sensors [5, 7, 5, 6, 42, 6]).1.distance_sensor =
      [5, 7, 5, 6, 42, 6].get? 4 :=
  C5_no_marker_validation (MiiABit.mk 0 0 none none) [5, 7, 5, 6, 42, 6] (by decide)

/-- Claim C6: construction issues exactly one handshake write of the single
byte 0 to the channel — the bytes written during construction are `[0]`,
no error is raised, and the initial state carries the two calibration
arguments with both cached sensor fields unset. -/
theorem C6_handshake (a b : Int) :
    MiiABit.init a b = ⟨⟨a, b, none, none⟩, [0], none⟩ := rfl

/-- Claim C9: a short read (fewer than 6 bytes available) makes
`get_data_from_sensors` raise a transport-level error (`struct.error`) and
leave the device state — including both cached sensor fields — unchanged. -/
theorem C9_short_read (st : MiiABit) (read_bytes : List Nat)
    (h : read_bytes.length ≠ 6) :
    st.get_data_from_sensors read_bytes = (st, some MErr.structError) := by
  simp [MiiABit.get_data_from_sensors, MiiABit.receive_data, struct_unpack_6B, h]

/-- Claim C9 witness: instance on a concrete 3-byte short read against a
state with populated sensor caches. -/
theorem C9_witness :
    (MiiABit.mk 1 2 (some 10) (some 1)).get_data_from_sensors [1, 2, 3] =
      (MiiABit.mk 1 2 (some 10) (some 1), some MErr.structError) :=
  C9_short_read (MiiABit.mk 1 2 (some 10) (some 1)) [1, 2, 3] (by decide)

lemma control_motor_state_eq (st : MiiABit) (motor direction : String)
    (speed : Int) : (st.control_motor motor direction speed).state = st := by
  unfold MiiABit.control_motor
  split_ifs <;> first | rfl | exact sendPacked_state st _

lemma control_servo_state_eq (st : MiiABit) (position : Int) :
    (st.control_servo_motor position).state = st := by
  unfold MiiABit.control_servo_motor
  split_ifs <;> first | rfl | exact sendPacked_state st _

lemma control_rgb_state_eq (st : MiiABit) (red green blue : Int) :
    (st.control_rgb_led red green blue).state = st := by
  unfold MiiABit.control_rgb_led
  split_ifs <;> first | rfl | exact sendPacked_state st _

lemma control_buzzer_state_eq (st : MiiABit) (buzzer_state : String) :
    (st.control_buzzer buzzer_state).state = st := by
  unfold MiiABit.control_buzzer
  split_ifs <;> first | rfl | exact sendPacked_state st _

/-- Claim C1: every public control or calibration operation, given any
input outside its domain range or enum (speed, servo position, or LED
intensity not in `range(0,101)`; calibration factor not in `range(-50,51)`;
motor not in the motors list; direction not a key of the directions dictionary;
buzzer state not a key of the states dictionary), raises an
`AssertionError` and writes zero bytes, leaving the device state
unchanged. -/
theorem C1_invalid_inputs_rejected (st : MiiABit)
    (motor direction buzzer_state : String)
    (speed position red green blue factor : Int) :
    ((miia_bit_motor_directions direction = none ∨
      miia_bit_motor_speed_range speed = false ∨
      miia_bit_motors.contains motor = false) →
        validationFailure st (st.control_motor motor direction speed)) ∧
    (miia_bit_servo_range position = false →
        validationFailure st (st.control_servo_motor position)) ∧
    ((miia_bit_rgb_led_range red = false ∨
      miia_bit_rgb_led_range green = false ∨
      miia_bit_rgb_led_range blue = false) →
        validationFailure st (st.control_rgb_led red green blue)) ∧
    (miia_bit_buzzer_states buzzer_state = none →
        validationFailure st (st.control_buzzer buzzer_state)) ∧
    ((miia_bit_motors.contains motor = false ∨
      miia_bit_calibration_range factor = false) →
        validationFailure st (st.set_motor_calibration motor factor)) := by
  refine ⟨?_, ?_, ?_, ?_, ?_⟩
  · intro h
    unfold MiiABit.control_motor
    split_ifs with h1 h2 h3
    · exact ⟨rfl, rfl, _, rfl⟩
    · exact ⟨rfl, rfl, _, rfl⟩
    · exact ⟨rfl, rfl, _, rfl⟩
    · exfalso
      rcases h with h | h | h <;> simp_all
  · intro h
    unfold MiiABit.control_servo_motor
    split_ifs with h1
    · exact ⟨rfl, rfl, _, rfl⟩
    · exact absurd h (by simp_all)
  · intro h
    unfold MiiABit.control_rgb_led
    split_ifs with h1 h2 h3
    · exact ⟨rfl, rfl, _, rfl⟩
    · exact ⟨rfl, rfl, _, rfl⟩
    · exact ⟨rfl, rfl, _, rfl⟩
    · exfalso
      rcases h with h | h | h <;> simp_all
  · intro h
    unfold MiiABit.control_buzzer
    split_ifs with h1
    · exact ⟨rfl, rfl, _, rfl⟩
    · exact absurd h (by simp_all)
  · intro h
    unfold MiiABit.set_motor_calibration
    split_ifs with h1 h2
    · exact ⟨rfl, rfl, _, rfl⟩
    · exact ⟨rfl, rfl, _, rfl⟩
    · exfalso
      rcases h with h | h <;> simp_all
    · exfalso
      rcases h with h | h <;> simp_all

/-- Claim C1 witness: each operation rejects a concrete out-of-domain
input with no write and no state change. -/
theorem C1_witness :
    validationFailure (MiiABit.mk 0 0 none none)
      ((MiiABit.mk 0 0 none none).control_motor "c" "sideways" 200) ∧
    validationFailure (MiiABit.mk 0 0 none none)
      ((MiiABit.mk 0 0 none none).control_servo_motor 101) ∧
    validationFailure (MiiABit.mk 0 0 none none)
      ((MiiABit.mk 0 0 none none).control_rgb_led (-1) 50 50) ∧
    validationFailure (MiiABit.mk 0 0 none none)
      ((MiiABit.mk 0 0 none none).control_buzzer "loud") ∧
    validationFailure (MiiABit.mk 0 0 none none)
      ((MiiABit.mk 0 0 none none).set_motor_calibration "c" 60) := by
  have h := C1_invalid_inputs_rejected (MiiABit.mk 0 0 none none)
    "c" "sideways" "loud" 200 101 (-1) 50 50 60
  exact ⟨h.1 (by decide), h.2.1 (by decide), h.2.2.1 (by decide),
    h.2.2.2.1 (by decide), h.2.2.2.2 (by decide)⟩

/-- Claim C2: for a valid motor and direction, a speed in `[0,100]`, and a
stored calibration factor in `[-50,50]` whose sum with the speed lies in
`[0,255]`, `control_motor` writes exactly the three bytes
`[motor_opcode, direction_value, speed + calibration]`. -/
theorem C2_motor_frame (st : MiiABit) (motor direction : String) (dv : Nat)
    (speed : Int)
    (hm : motor = "a" ∨ motor = "b")
    (hd : miia_bit_motor_directions direction = some dv)
    (hs : 0 ≤ speed ∧ speed ≤ 100)
    (hc : -50 ≤ st.calOf motor ∧ st.calOf motor ≤ 50)
    (hsum : 0 ≤ speed + st.calOf motor) :
    st.control_motor motor direction speed =
      ⟨st, [if motor = "a" then 202 else 203, dv,
            (speed + st.calOf motor).toNat], none⟩ := by
  have hdv := directions_some_cases direction dv hd
  have hs1 : miia_bit_motor_speed_range speed = true := (speed_range_iff speed).mpr hs
  have hm1 := motors_contains_of_eq motor hm
  rcases hm with rfl | rfl
  · have hop : miia_bit_opcodes ("motor_" ++ "a") = some 202 := rfl
    have hbound : ∀ x ∈ [((202 : Nat) : Int), (dv : Int), speed + st.calOf "a"],
        0 ≤ x ∧ x ≤ 255 := by
      intro x hx
      simp only [List.mem_cons, List.not_mem_nil, or_false] at hx
      rcases hdv with rfl | rfl <;> rcases hx with rfl | rfl | rfl <;>
        constructor <;> omega
    unfold MiiABit.control_motor
    simp only [hd, hs1, hm1, hop, Option.isNone_some, Bool.not_true,
      Bool.false_eq_true, if_false, pack_data_array_ok _ hbound, sendPacked,
      List.map, Int.toNat_natCast]
    simp
  · have hop : miia_bit_opcodes ("motor_" ++ "b") = some 203 := rfl
    have hbound : ∀ x ∈ [((203 : Nat) : Int), (dv : Int), speed + st.calOf "b"],
        0 ≤ x ∧ x ≤ 255 := by
      intro x hx
      simp only [List.mem_cons, List.not_mem_nil, or_false] at hx
      rcases hdv with rfl | rfl <;> rcases hx with rfl | rfl | rfl <;>
        constructor <;> omega
    unfold MiiABit.control_motor
    simp only [hd, hs1, hm1, hop, Option.isNone_some, Bool.not_true,
      Bool.false_eq_true, if_false, pack_data_array_ok _ hbound, sendPacked,
      List.map, Int.toNat_natCast]
    simp

/-- Claim C2 witness: `control_motor("a","forward",50)` with calibration 0
emits `[202,0,50]`, and with calibration -10 emits `[202,0,40]`. -/
theorem C2_witness :
    (MiiABit.mk 0 0 none none).control_motor "a" "forward" 50 =
      ⟨MiiABit.mk 0 0 none none, [202, 0, 50], none⟩ ∧
    (MiiABit.mk (-10) 0 none none).control_motor "a" "forward" 50 =
      ⟨MiiABit.mk (-10) 0 none none, [202, 0, 40], none⟩ := by
  constructor
  · have h := C2_motor_frame (MiiABit.mk 0 0 none none) "a" "forward" 0 50
      (Or.inl rfl) rfl (by decide) (by decide) (by decide)
    exact h.trans (by decide)
  · have h := C2_motor_frame (MiiABit.mk (-10) 0 none none) "a" "forward" 0 50
      (Or.inl rfl) rfl (by decide) (by decide) (by decide)
    exact h.trans (by decide)

/-- Claim C3 counterexample: with stored calibration -50 for motor a, the
post-calibration speed of `control_motor("a","forward",0)` is -50, outside
`[0,255]`; the pack step raises `struct.error` and writes nothing — the
value is neither wrapped into one byte nor transmitted. -/
theorem C3_counterexample :
    (MiiABit.mk (-50) 0 none none).control_motor "a" "forward" 0 =
      ⟨MiiABit.mk (-50) 0 none none, [], some MErr.structError⟩ := by decide

/-- Claim C3 (amended): when the computed post-calibration speed falls
outside `[0,255]` in `control_motor`, the fixed-width pack step raises
`struct.error` and the frame is not transmitted (zero bytes written, state
unchanged); there is no silent truncation. -/
theorem C3_overflow_raises (st : MiiABit) (motor direction : String)
    (speed : Int)
    (hm : motor = "a" ∨ motor = "b")
    (hd : (miia_bit_motor_directions direction).isSome = true)
    (hs : 0 ≤ speed ∧ speed ≤ 100)
    (hout : speed + st.calOf motor < 0 ∨ 255 < speed + st.calOf motor) :
    st.control_motor motor direction speed =
      ⟨st, [], some MErr.structError⟩ := by
  rcases Option.isSome_iff_exists.mp hd with ⟨dv, hdeq⟩
  have hdv := directions_some_cases direction dv hdeq
  have hs1 : miia_bit_motor_speed_range speed = true := (speed_range_iff speed).mpr hs
  have hm1 := motors_contains_of_eq motor hm
  rcases hm with rfl | rfl
  · have hop : miia_bit_opcodes ("motor_" ++ "a") = some 202 := rfl
    have hpack : pack_data_array [((202 : Nat) : Int), (dv : Int),
        speed + st.calOf "a"] = Except.error MErr.structError := by
      refine pack_data_array_third_bad _ _ _ (by constructor <;> omega) ?_ hout
      rcases hdv with rfl | rfl <;> constructor <;> omega
    unfold MiiABit.control_motor
    simp only [hdeq, hs1, hm1, hop, Option.isNone_some, Bool.not_true,
      Bool.false_eq_true, if_false, hpack, sendPacked]
  · have hop : miia_bit_opcodes ("motor_" ++ "b") = some 203 := rfl
    have hpack : pack_data_array [((203 : Nat) : Int), (dv : Int),
        speed + st.calOf "b"] = Except.error MErr.structError := by
      refine pack_data_array_third_bad _ _ _ (by constructor <;> omega) ?_ hout
      rcases hdv with rfl | rfl <;> constructor <;> omega
    unfold MiiABit.control_motor
    simp only [hdeq, hs1, hm1, hop, Option.isNone_some, Bool.not_true,
      Bool.false_eq_true, if_false, hpack, sendPacked]

/-- Claim C3 witness: instance of the amended theorem — calibration -10 and
speed 5 give post-calibration speed -5, so the operation raises
`struct.error` with zero bytes written. -/
theorem C3_witness :
    (MiiABit.mk (-10) 0 none none).control_motor "a" "forward" 5 =
      ⟨MiiABit.mk (-10) 0 none none, [], some MErr.structError⟩ :=
  C3_overflow_raises (MiiABit.mk (-10) 0 none none) "a" "forward" 5
    (Or.inl rfl) (by decide) (by decide) (Or.inl (by decide))

/-- Claim C7: `control_rgb_led(r,g,b)` with each channel in `[0,100]`
writes the 6-byte sequence `[204, r, 205, g, 206, b]` in that order. -/
theorem C7_rgb_frame (st : MiiABit) (red green blue : Int)
    (hr : 0 ≤ red ∧ red ≤ 100) (hg : 0 ≤ green ∧ green ≤ 100)
    (hb : 0 ≤ blue ∧ blue ≤ 100) :
    st.control_rgb_led red green blue =
      ⟨st, [204, red.toNat, 205, green.toNat, 206, blue.toNat], none⟩ := by
  have hr1 := (rgb_range_iff red).mpr hr
  have hg1 := (rgb_range_iff green).mpr hg
  have hb1 := (rgb_range_iff blue).mpr hb
  have hopr : miia_bit_opcodes "rgb_led_r" = some 204 := rfl
  have hopg : miia_bit_opcodes "rgb_led_g" = some 205 := rfl
  have hopb : miia_bit_opcodes "rgb_led_b" = some 206 := rfl
  have hbound : ∀ x ∈ [((204 : Nat) : Int), red, ((205 : Nat) : Int), green,
      ((206 : Nat) : Int), blue], 0 ≤ x ∧ x ≤ 255 := by
    intro x hx
    simp only [List.mem_cons, List.not_mem_nil, or_false] at hx
    rcases hx with rfl | rfl | rfl | rfl | rfl | rfl <;> constructor <;> omega
  unfold MiiABit.control_rgb_led
  simp only [hr1, hg1, hb1, hopr, hopg, hopb, Bool.not_true,
    Bool.false_eq_true, if_false, pack_data_array_ok _ hbound, sendPacked,
    List.map, Int.toNat_natCast]

/-- Claim C7 witness: `control_rgb_led(0,0,0)` writes exactly
`[204,0,205,0,206,0]`. -/
theorem C7_witness :
    (MiiABit.mk 0 0 none none).control_rgb_led 0 0 0 =
      ⟨MiiABit.mk 0 0 none none, [204, 0, 205, 0, 206, 0], none⟩ :=
  C7_rgb_frame (MiiABit.mk 0 0 none none) 0 0 0
    (by decide) (by decide) (by decide)

/-- Claim C8: for a valid motor in `{a,b}` and factor in `[-50,50]`,
`set_motor_calibration` stores the factor for that motor in the device
state, writes zero bytes, and raises no error. -/
theorem C8_set_calibration (st : MiiABit) (motor : String) (factor : Int)
    (hm : motor = "a" ∨ motor = "b") (hf : -50 ≤ factor ∧ factor ≤ 50) :
    (st.set_motor_calibration motor factor).state.calOf motor = factor ∧
    (st.set_motor_calibration motor factor).written = [] ∧
    (st.set_motor_calibration motor factor).err = none := by
  have hm1 := motors_contains_of_eq motor hm
  have hf1 := (calibration_range_iff factor).mpr hf
  rcases hm with rfl | rfl <;>
    unfold MiiABit.set_motor_calibration <;>
    simp [hm1, hf1, MiiABit.calOf, miia_bit_motors]

/-- Claim C8 witness: storing factor 25 for motor b emits nothing and is
readable back from the device state. -/
theorem C8_witness :
    ((MiiABit.mk 0 0 none none).set_motor_calibration "b" 25).state.calOf "b" = 25 ∧
    ((MiiABit.mk 0 0 none none).set_motor_calibration "b" 25).written = [] ∧
    ((MiiABit.mk 0 0 none none).set_motor_calibration "b" 25).err = none :=
  C8_set_calibration (MiiABit.mk 0 0 none none) "b" 25 (Or.inr rfl) (by decide)

/-- Claim C10: with a validated speed in `[0,100]` and a stored calibration
factor in `[-50,50]`, the effective speed `speed + calibration` lies in
`[-50,150]`, hence never exceeds 255, and can only leave `[0,255]` by being
negative; moreover no control operation modifies the device state (so the
stored calibration factors in particular are untouched). -/
theorem C10_effective_speed_and_state (st : MiiABit)
    (motor direction buzzer_state : String)
    (speed position red green blue : Int)
    (hs : 0 ≤ speed ∧ speed ≤ 100)
    (hc : -50 ≤ st.calOf motor ∧ st.calOf motor ≤ 50) :
    (-50 ≤ speed + st.calOf motor ∧ speed + st.calOf motor ≤ 150) ∧
    speed + st.calOf motor ≤ 255 ∧
    (¬ (0 ≤ speed + st.calOf motor ∧ speed + st.calOf motor ≤ 255) →
      speed + st.calOf motor < 0) ∧
    (st.control_motor motor direction speed).state = st ∧
    (st.control_servo_motor position).state = st ∧
    (st.control_rgb_led red green blue).state = st ∧
    (st.control_buzzer buzzer_state).state = st :=
  ⟨by omega, by omega, by omega,
   control_motor_state_eq st motor direction speed,
   control_servo_state_eq st position,
   control_rgb_state_eq st red green blue,
   control_buzzer_state_eq st buzzer_state⟩

/-- Claim C10 witness: concrete instance with calibration 30 on motor a and
speed 70. -/
theorem C10_witness :
    (-50 ≤ (70 : Int) + (MiiABit.mk 30 (-20) none none).calOf "a" ∧
      (70 : Int) + (MiiABit.mk 30 (-20) none none).calOf "a" ≤ 150) ∧
    (70 : Int) + (MiiABit.mk 30 (-20) none none).calOf "a" ≤ 255 ∧
    (¬ (0 ≤ (70 : Int) + (MiiABit.mk 30 (-20) none none).calOf "a" ∧
        (70 : Int) + (MiiABit.mk 30 (-20) none none).calOf "a" ≤ 255) →
      (70 : Int) + (MiiABit.mk 30 (-20) none none).calOf "a" < 0) ∧
    ((MiiABit.mk 30 (-20) none none).control_motor "a" "forward" 70).state =
      MiiABit.mk 30 (-20) none none ∧
    ((MiiABit.mk 30 (-20) none none).control_servo_motor 10).state =
      MiiABit.mk 30 (-20) none none ∧
    ((MiiABit.mk 30 (-20) none none).control_rgb_led 1 2 3).state =
      MiiABit.mk 30 (-20) none none ∧
    ((MiiABit.mk 30 (-20) none none).control_buzzer "on").state =
      MiiABit.mk 30 (-20) none none :=
  C10_effective_speed_and_state (MiiABit.mk 30 (-20) none none)
    "a" "forward" "on" 70 10 1 2 3 (by decide) (by decide)
